import Mathlib

/-!
Verification of the interactive-pricing widget (`src/script.js`).

The JavaScript core is a direct mapping from a small mutable state — the
range input's current value, the `isYearlyBilling` flag, the two display
text surfaces and the discount button's `active` class — to displayed text.
We embed that state as the structure `DomState` and every function of
`script.js` as a pure state transformer.  All arithmetic the script performs
(`price * (1 - 0.25)` over the catalog prices 8, 12, 16, 24, 36) is exact in
IEEE-754 double precision, so rationals (`ℚ`) are a faithful model of the
JavaScript numbers involved.
-/

/-- One entry of `PRICING_DATA`: a `views` label and a base monthly price. -/
structure PricingInfo where
  views : String
  price : ℚ
deriving DecidableEq

/-- The catalog `PRICING_DATA` of `script.js`, as the lookup function a
JavaScript object denotes: keys `1..5`, any other key yields `undefined`
(here `none`). -/
def PRICING_DATA : Nat → Option PricingInfo
  | 1 => some ⟨"10K", 8⟩
  | 2 => some ⟨"50K", 12⟩
  | 3 => some ⟨"100K", 16⟩
  | 4 => some ⟨"500K", 24⟩
  | 5 => some ⟨"1M", 36⟩
  | _ => none

/-- `const YEARLY_DISCOUNT = 0.25` (exactly representable as a double). -/
def YEARLY_DISCOUNT : ℚ := 0.25

/-- `const DEFAULT_RANGE_VALUE = 3`. -/
def DEFAULT_RANGE_VALUE : Nat := 3

/-- The mutable state `script.js` reads and writes: the DOM pieces it is
wired to (`rangeInput.value`, `viewCount.textContent`,
`monthPrice.textContent`, presence of the `active` class on `discountBtn`)
together with the module-level flag `isYearlyBilling`. -/
structure DomState where
  rangeInputValue : Nat
  viewCountText : String
  monthPriceText : String
  discountBtnActive : Bool
  isYearlyBilling : Bool
deriving DecidableEq

/-- How JavaScript's template literal prints the numbers arising here: a
number with integral value prints with no decimal point.  Every price the
script ever interpolates is integral, so only the first branch is exercised. -/
def jsNumberToString (q : ℚ) : String :=
  if q.den = 1 then toString q.num else toString q

/-- The `updatePricing` arrow function: look the current range value up in
`PRICING_DATA`; if an entry exists, write its label to the view-count
surface and the (possibly discounted) price, formatted as `$...`, to the
price surface; otherwise do nothing. -/
def updatePricing (s : DomState) : DomState :=
  match PRICING_DATA s.rangeInputValue with
  | some pricingInfo =>
    let finalPrice :=
      if s.isYearlyBilling then pricingInfo.price * (1 - YEARLY_DISCOUNT)
      else pricingInfo.price
    { s with viewCountText := pricingInfo.views,
             monthPriceText := "$" ++ jsNumberToString finalPrice }
  | none => s

/-- The single kind of error the specification names. -/
inductive JsException where
  | invalidTierError
deriving DecidableEq

/-- Exception-aware embedding of `updatePricing`, statement by statement.
Every JavaScript construct in the function body completes normally —
indexing `PRICING_DATA` with a missing key yields `undefined` rather than
throwing, and the truthiness guard, template literal and `textContent`
assignments cannot throw — so no branch produces `Except.error`. -/
def updatePricingE (s : DomState) : Except JsException DomState :=
  match PRICING_DATA s.rangeInputValue with
  | some pricingInfo =>
    let finalPrice :=
      if s.isYearlyBilling then pricingInfo.price * (1 - YEARLY_DISCOUNT)
      else pricingInfo.price
    Except.ok { s with viewCountText := pricingInfo.views,
                       monthPriceText := "$" ++ jsNumberToString finalPrice }
  | none => Except.ok s

/-- `handleRangeChange` just delegates to `updatePricing`. -/
def handleRangeChange (s : DomState) : DomState :=
  updatePricing s

/-- An `input` event on the range slider: the browser first stores the new
value in `rangeInput.value`, then the registered `handleRangeChange` runs. -/
def rangeInputEvent (n : Nat) (s : DomState) : DomState :=
  handleRangeChange { s with rangeInputValue := n }

/-- `handleDiscountToggle`: flip `isYearlyBilling`, mirror the new flag into
the button's `active` class, then `updatePricing`. -/
def handleDiscountToggle (s : DomState) : DomState :=
  let s1 := { s with isYearlyBilling := !s.isYearlyBilling }
  let s2 :=
    if s1.isYearlyBilling then { s1 with discountBtnActive := true }
    else { s1 with discountBtnActive := false }
  updatePricing s2

/-- `initializeComponent`: set the range input to `DEFAULT_RANGE_VALUE`,
render once, and register the two event handlers (registration itself is
modelled by the `Op` semantics below). -/
def initializeComponent (s : DomState) : DomState :=
  updatePricing { s with rangeInputValue := DEFAULT_RANGE_VALUE }

/-- Modelled from the spec: the HTML document is not under `src/`, so the
pre-initialization contents of the DOM come from the spec instead.  The spec
fixes `isYearly = false` at startup (also `script.js` line 20) and requires
the discount button's visual marker to be derivable from `isYearly`, hence
absent at startup; the initial display texts and slider position are
immaterial because `initializeComponent` overwrites them before any
interaction. -/
def initialDom : DomState :=
  { rangeInputValue := 0
    viewCountText := ""
    monthPriceText := ""
    discountBtnActive := false
    isYearlyBilling := false }

/-- The two user operations the widget reacts to after initialization. -/
inductive Op where
  | setTier (n : Nat)
  | toggleBilling
deriving DecidableEq

/-- Dispatch one operation to its registered handler. -/
def applyOp (op : Op) (s : DomState) : DomState :=
  match op with
  | .setTier n => rangeInputEvent n s
  | .toggleBilling => handleDiscountToggle s

/-- Run a sequence of user operations in order. -/
def run (ops : List Op) (s : DomState) : DomState :=
  ops.foldl (fun s op => applyOp op s) s

/-- The displayed-price formula exactly as the spec states it:
`basePrice * (isYearly ? 0.75 : 1)`. -/
def spec_DisplayedPrice (basePrice : ℚ) (isYearly : Bool) : ℚ :=
  basePrice * (if isYearly then (0.75 : ℚ) else 1)

section Helpers

/-- Catalog entries, computed. -/
lemma PRICING_DATA_one : PRICING_DATA 1 = some ⟨"10K", 8⟩ := rfl

lemma PRICING_DATA_two : PRICING_DATA 2 = some ⟨"50K", 12⟩ := rfl

lemma PRICING_DATA_three : PRICING_DATA 3 = some ⟨"100K", 16⟩ := rfl

lemma PRICING_DATA_four : PRICING_DATA 4 = some ⟨"500K", 24⟩ := rfl

lemma PRICING_DATA_five : PRICING_DATA 5 = some ⟨"1M", 36⟩ := rfl

/-- Keys other than 1..5 miss the catalog. -/
lemma PRICING_DATA_eq_none (n : Nat) (h : n = 0 ∨ 5 < n) :
    PRICING_DATA n = none := by
  unfold PRICING_DATA
  split <;> first | rfl | (exfalso; omega)

/-- A catalog hit pins the key into 1..5. -/
lemma PRICING_DATA_some_range (n : Nat) (p : PricingInfo)
    (h : PRICING_DATA n = some p) : 1 ≤ n ∧ n ≤ 5 := by
  by_contra hc
  rw [PRICING_DATA_eq_none n (by omega)] at h
  exact Option.noConfusion h

/-- The yearly prices of the five tiers, computed exactly. -/
lemma yearly_price_8 : (8 : ℚ) * (1 - YEARLY_DISCOUNT) = 6 := by
  norm_num [YEARLY_DISCOUNT]

lemma yearly_price_12 : (12 : ℚ) * (1 - YEARLY_DISCOUNT) = 9 := by
  norm_num [YEARLY_DISCOUNT]

lemma yearly_price_16 : (16 : ℚ) * (1 - YEARLY_DISCOUNT) = 12 := by
  norm_num [YEARLY_DISCOUNT]

lemma yearly_price_24 : (24 : ℚ) * (1 - YEARLY_DISCOUNT) = 18 := by
  norm_num [YEARLY_DISCOUNT]

lemma yearly_price_36 : (36 : ℚ) * (1 - YEARLY_DISCOUNT) = 27 := by
  norm_num [YEARLY_DISCOUNT]

/-- Printing the integral prices that can reach the display. -/
lemma jsNumberToString_six : jsNumberToString 6 = "6" := rfl

lemma jsNumberToString_eight : jsNumberToString 8 = "8" := rfl

lemma jsNumberToString_nine : jsNumberToString 9 = "9" := rfl

lemma jsNumberToString_twelve : jsNumberToString 12 = "12" := rfl

lemma jsNumberToString_sixteen : jsNumberToString 16 = "16" := rfl

lemma jsNumberToString_eighteen : jsNumberToString 18 = "18" := rfl

lemma jsNumberToString_twentyfour : jsNumberToString 24 = "24" := rfl

lemma jsNumberToString_twentyseven : jsNumberToString 27 = "27" := rfl

lemma jsNumberToString_thirtysix : jsNumberToString 36 = "36" := rfl

/-- `updatePricing` on a catalog hit, written out. -/
lemma updatePricing_of_some (s : DomState) (info : PricingInfo)
    (h : PRICING_DATA s.rangeInputValue = some info) :
    updatePricing s =
      { s with viewCountText := info.views,
               monthPriceText := "$" ++ jsNumberToString
                 (if s.isYearlyBilling then info.price * (1 - YEARLY_DISCOUNT)
                  else info.price) } := by
  unfold updatePricing
  rw [h]

/-- `updatePricing` on a catalog miss is the identity. -/
lemma updatePricing_of_none (s : DomState)
    (h : PRICING_DATA s.rangeInputValue = none) : updatePricing s = s := by
  unfold updatePricing
  rw [h]

/-- The exception-aware embedding always succeeds, returning exactly what the
pure embedding computes. -/
lemma updatePricingE_ok (s : DomState) :
    updatePricingE s = Except.ok (updatePricing s) := by
  unfold updatePricingE updatePricing
  cases h : PRICING_DATA s.rangeInputValue <;> rfl

/-- `updatePricing` never touches the range input. -/
lemma updatePricing_rangeInputValue (s : DomState) :
    (updatePricing s).rangeInputValue = s.rangeInputValue := by
  unfold updatePricing
  split <;> rfl

/-- `updatePricing` never touches the billing flag. -/
lemma updatePricing_isYearlyBilling (s : DomState) :
    (updatePricing s).isYearlyBilling = s.isYearlyBilling := by
  unfold updatePricing
  split <;> rfl

/-- `updatePricing` never touches the button's `active` class. -/
lemma updatePricing_discountBtnActive (s : DomState) :
    (updatePricing s).discountBtnActive = s.discountBtnActive := by
  unfold updatePricing
  split <;> rfl

/-- The toggle handler flips the billing flag. -/
lemma handleDiscountToggle_isYearlyBilling (s : DomState) :
    (handleDiscountToggle s).isYearlyBilling = !s.isYearlyBilling := by
  unfold handleDiscountToggle
  cases hb : s.isYearlyBilling <;>
    simp [hb, updatePricing_isYearlyBilling]

/-- The toggle handler leaves the range input alone. -/
lemma handleDiscountToggle_rangeInputValue (s : DomState) :
    (handleDiscountToggle s).rangeInputValue = s.rangeInputValue := by
  unfold handleDiscountToggle
  cases hb : s.isYearlyBilling <;>
    simp [hb, updatePricing_rangeInputValue]

/-- After the toggle handler, the `active` class mirrors the new flag. -/
lemma handleDiscountToggle_discountBtnActive (s : DomState) :
    (handleDiscountToggle s).discountBtnActive = !s.isYearlyBilling := by
  unfold handleDiscountToggle
  cases hb : s.isYearlyBilling <;>
    simp [hb, updatePricing_discountBtnActive]

/-- The range-event handler stores the new value and preserves the flag. -/
lemma rangeInputEvent_fields (n : Nat) (s : DomState) :
    (rangeInputEvent n s).rangeInputValue = n ∧
    (rangeInputEvent n s).isYearlyBilling = s.isYearlyBilling ∧
    (rangeInputEvent n s).discountBtnActive = s.discountBtnActive := by
  unfold rangeInputEvent handleRangeChange
  exact ⟨updatePricing_rangeInputValue _, updatePricing_isYearlyBilling _,
    updatePricing_discountBtnActive _⟩

end Helpers

/-- C1 counterexample: at the concrete out-of-range tier id 6 (the claim
names 0 and 6 in particular) the operation does not fail — it completes
normally with the state unchanged, instead of raising `InvalidTierError`. -/
theorem C1_counterexample :
    updatePricingE ⟨6, "100K", "$16", false, false⟩ =
      Except.ok (⟨6, "100K", "$16", false, false⟩ : DomState) := rfl

/-- C1 (amended): for every tier id outside [1,5] — in particular 0 and 6 —
invoking the operation with that range value raises no error at all: it
completes normally as a silent no-op, leaving the selected range value and
both display surfaces (the whole state) unchanged. -/
theorem C1_amended_no_error_noop (s : DomState)
    (h : s.rangeInputValue < 1 ∨ 5 < s.rangeInputValue) :
    updatePricingE s = Except.ok s := by
  rw [updatePricingE_ok, updatePricing_of_none]
  exact PRICING_DATA_eq_none _ (by omega)

/-- C1 witness: the amended statement applied at tier id 0. -/
theorem C1_amended_witness :
    updatePricingE ⟨0, "", "", false, false⟩ =
      Except.ok (⟨0, "", "", false, false⟩ : DomState) :=
  C1_amended_no_error_noop ⟨0, "", "", false, false⟩ (by decide)

/-- C2: whenever the range value is a valid tier (a catalog hit) and in
either billing mode, the price written to the display surface is exactly the
spec's formula: the base price times 0.75 when yearly, times 1 otherwise. -/
theorem C2_displayed_price_formula (s : DomState) (info : PricingInfo)
    (h : PRICING_DATA s.rangeInputValue = some info) :
    (updatePricing s).monthPriceText =
      "$" ++ jsNumberToString (spec_DisplayedPrice info.price s.isYearlyBilling) := by
  rw [updatePricing_of_some s info h]
  cases hb : s.isYearlyBilling <;>
    norm_num [spec_DisplayedPrice, YEARLY_DISCOUNT]

/-- C2 witness: the formula applied at tier 3, monthly billing. -/
theorem C2_witness :
    (updatePricing ⟨3, "", "", false, false⟩).monthPriceText =
      "$" ++ jsNumberToString (spec_DisplayedPrice 16 false) :=
  C2_displayed_price_formula ⟨3, "", "", false, false⟩ ⟨"100K", 16⟩ rfl

/-- C4: after initialization and before any input event — whatever state the
HTML document supplied beforehand — the selected tier is 3, the billing flag
is false, the view-count surface reads "100K" and the price surface reads
"$16". -/
theorem C4_initial_render (r : Nat) (v m : String) (a : Bool) :
    (initializeComponent ⟨r, v, m, a, false⟩).rangeInputValue = 3 ∧
    (initializeComponent ⟨r, v, m, a, false⟩).isYearlyBilling = false ∧
    (initializeComponent ⟨r, v, m, a, false⟩).viewCountText = "100K" ∧
    (initializeComponent ⟨r, v, m, a, false⟩).monthPriceText = "$16" :=
  ⟨rfl, rfl, rfl, rfl⟩

/-- C5: with both the current tier and the new tier in [1,5], `setTier n`
moves (s, b) to (n, b) — the billing flag is untouched — and
`toggleBilling` moves (s, b) to (s, ¬b) — the tier is untouched. -/
theorem C5_transition_frame (s : DomState) (n : Nat)
    (hs : 1 ≤ s.rangeInputValue ∧ s.rangeInputValue ≤ 5)
    (hn : 1 ≤ n ∧ n ≤ 5) :
    ((rangeInputEvent n s).rangeInputValue = n ∧
      (rangeInputEvent n s).isYearlyBilling = s.isYearlyBilling) ∧
    ((handleDiscountToggle s).rangeInputValue = s.rangeInputValue ∧
      (handleDiscountToggle s).isYearlyBilling = !s.isYearlyBilling) :=
  ⟨⟨(rangeInputEvent_fields n s).1, (rangeInputEvent_fields n s).2.1⟩,
    ⟨handleDiscountToggle_rangeInputValue s, handleDiscountToggle_isYearlyBilling s⟩⟩

/-- C5 witness: the transitions applied at state (3, false) with n = 2. -/
theorem C5_witness :
    ((rangeInputEvent 2 ⟨3, "100K", "$16", false, false⟩).rangeInputValue = 2 ∧
      (rangeInputEvent 2 ⟨3, "100K", "$16", false, false⟩).isYearlyBilling = false) ∧
    ((handleDiscountToggle ⟨3, "100K", "$16", false, false⟩).rangeInputValue = 3 ∧
      (handleDiscountToggle ⟨3, "100K", "$16", false, false⟩).isYearlyBilling = true) :=
  C5_transition_frame ⟨3, "100K", "$16", false, false⟩ 2 (by decide) (by decide)

/-- C10: `updatePricing` terminates normally on every state — no exception
for any range value — and on a catalog miss the guard makes it a silent
no-op leaving the whole state, in particular both display surfaces,
unchanged. -/
theorem C10_total_silent_noop (s : DomState) :
    updatePricingE s = Except.ok (updatePricing s) ∧
    (PRICING_DATA s.rangeInputValue = none → updatePricing s = s) :=
  ⟨updatePricingE_ok s, fun h => updatePricing_of_none s h⟩

/-- C10 witness: totality and the no-op behaviour at the concrete missing
key 7. -/
theorem C10_witness :
    updatePricingE ⟨7, "1M", "$36", true, true⟩ =
      Except.ok (updatePricing ⟨7, "1M", "$36", true, true⟩) ∧
    updatePricing ⟨7, "1M", "$36", true, true⟩ =
      (⟨7, "1M", "$36", true, true⟩ : DomState) :=
  ⟨(C10_total_silent_noop ⟨7, "1M", "$36", true, true⟩).1,
    (C10_total_silent_noop ⟨7, "1M", "$36", true, true⟩).2 rfl⟩

/-- Every tier id in 1..5 hits the catalog. -/
lemma PRICING_DATA_isSome_of_range (n : Nat) (h1 : 1 ≤ n) (h2 : n ≤ 5) :
    ∃ info, PRICING_DATA n = some info := by
  interval_cases n <;> exact ⟨_, rfl⟩

/-- The toggle handler is `updatePricing` of the flipped state. -/
lemma handleDiscountToggle_eq_updatePricing (s : DomState) :
    handleDiscountToggle s =
      updatePricing { s with isYearlyBilling := !s.isYearlyBilling,
                             discountBtnActive := !s.isYearlyBilling } := by
  obtain ⟨r, v, m, a, b⟩ := s
  cases b <;> rfl

/-- Two consecutive toggles land the price surface back on the text a plain
re-render of the original state would produce. -/
lemma toggle_toggle_monthPriceText (s : DomState) (info : PricingInfo)
    (hinfo : PRICING_DATA s.rangeInputValue = some info) :
    (handleDiscountToggle (handleDiscountToggle s)).monthPriceText =
      (updatePricing s).monthPriceText := by
  obtain ⟨r, v, m, a, b⟩ := s
  cases b <;>
    simp [handleDiscountToggle, updatePricing, hinfo]

/-- C3: from the initial state, setTier(4) shows "500K" at "$24"; a billing
toggle then shows "$18" with the view count still "500K"; setTier(2) then
shows "50K" at "$9", the yearly discount still applied. -/
theorem C3_end_to_end :
    ((run [Op.setTier 4] (initializeComponent initialDom)).viewCountText = "500K" ∧
      (run [Op.setTier 4] (initializeComponent initialDom)).monthPriceText = "$24") ∧
    ((run [Op.setTier 4, Op.toggleBilling] (initializeComponent initialDom)).monthPriceText = "$18" ∧
      (run [Op.setTier 4, Op.toggleBilling] (initializeComponent initialDom)).viewCountText = "500K") ∧
    ((run [Op.setTier 4, Op.toggleBilling, Op.setTier 2] (initializeComponent initialDom)).viewCountText = "50K" ∧
      (run [Op.setTier 4, Op.toggleBilling, Op.setTier 2] (initializeComponent initialDom)).monthPriceText = "$9") := by
  have h0 : initializeComponent initialDom = ⟨3, "100K", "$16", false, false⟩ := rfl
  have h1 : rangeInputEvent 4 ⟨3, "100K", "$16", false, false⟩ =
      ⟨4, "500K", "$24", false, false⟩ := rfl
  have h2 : handleDiscountToggle ⟨4, "500K", "$24", false, false⟩ =
      ⟨4, "500K", "$18", true, true⟩ := by
    show updatePricing ⟨4, "500K", "$24", true, true⟩ =
      ⟨4, "500K", "$18", true, true⟩
    rw [updatePricing_of_some ⟨4, "500K", "$24", true, true⟩ ⟨"500K", 24⟩ rfl]
    simp [yearly_price_24, jsNumberToString_eighteen]
  have h3 : rangeInputEvent 2 ⟨4, "500K", "$18", true, true⟩ =
      ⟨2, "50K", "$9", true, true⟩ := by
    show updatePricing ⟨2, "500K", "$18", true, true⟩ =
      ⟨2, "50K", "$9", true, true⟩
    rw [updatePricing_of_some ⟨2, "500K", "$18", true, true⟩ ⟨"50K", 12⟩ rfl]
    simp [yearly_price_12, jsNumberToString_nine]
  simp [run, applyOp, h0, h1, h2, h3]

/-- C6: for a state over a valid tier whose price surface shows what a
render of that state produces, toggling billing twice restores both the
billing flag and the displayed price to their original values. -/
theorem C6_double_toggle_identity (s : DomState) (h1 : 1 ≤ s.rangeInputValue)
    (h2 : s.rangeInputValue ≤ 5)
    (hrendered : s.monthPriceText = (updatePricing s).monthPriceText) :
    (handleDiscountToggle (handleDiscountToggle s)).isYearlyBilling =
      s.isYearlyBilling ∧
    (handleDiscountToggle (handleDiscountToggle s)).monthPriceText =
      s.monthPriceText := by
  obtain ⟨info, hinfo⟩ := PRICING_DATA_isSome_of_range s.rangeInputValue h1 h2
  refine ⟨?_, ?_⟩
  · rw [handleDiscountToggle_isYearlyBilling, handleDiscountToggle_isYearlyBilling,
      Bool.not_not]
  · rw [toggle_toggle_monthPriceText s info hinfo, ← hrendered]

/-- C6 witness: the double toggle applied at the rendered state (3, false). -/
theorem C6_witness :
    (handleDiscountToggle (handleDiscountToggle
      ⟨3, "100K", "$16", false, false⟩)).isYearlyBilling = false ∧
    (handleDiscountToggle (handleDiscountToggle
      ⟨3, "100K", "$16", false, false⟩)).monthPriceText = "$16" :=
  C6_double_toggle_identity ⟨3, "100K", "$16", false, false⟩
    (by decide) (by decide) rfl

/-- C7: setTier(1) shows "10K" at $8 monthly and $6 yearly; setTier(5)
shows "1M" at $36 monthly and $27 yearly — from any state. -/
theorem C7_boundary_tiers (s : DomState) :
    ((rangeInputEvent 1 s).viewCountText = "10K" ∧
      (rangeInputEvent 1 s).monthPriceText =
        (if s.isYearlyBilling then "$6" else "$8")) ∧
    ((rangeInputEvent 5 s).viewCountText = "1M" ∧
      (rangeInputEvent 5 s).monthPriceText =
        (if s.isYearlyBilling then "$27" else "$36")) := by
  obtain ⟨r, v, m, a, b⟩ := s
  cases b <;>
    simp [rangeInputEvent, handleRangeChange, updatePricing, PRICING_DATA_one,
      PRICING_DATA_five, yearly_price_8, yearly_price_36, jsNumberToString_six,
      jsNumberToString_eight, jsNumberToString_twentyseven,
      jsNumberToString_thirtysix]

/-- C8: the catalog's keys are exactly the contiguous integers 1..5 (a
function of the key, so no key holds two entries), and the base price is
monotonically non-decreasing in the tier id. -/
theorem C8_table_shape :
    (∀ n : Nat, (PRICING_DATA n).isSome ↔ 1 ≤ n ∧ n ≤ 5) ∧
    (∀ i j : Nat, ∀ pi pj : PricingInfo, i ≤ j →
      PRICING_DATA i = some pi → PRICING_DATA j = some pj →
      pi.price ≤ pj.price) := by
  constructor
  · intro n
    constructor
    · intro h
      rcases hk : PRICING_DATA n with _ | p
      · rw [hk] at h
        exact absurd h (by simp)
      · exact PRICING_DATA_some_range n p hk
    · rintro ⟨hn1, hn5⟩
      interval_cases n <;> rfl
  · intro i j pi pj hij hi hj
    obtain ⟨hi1, hi5⟩ := PRICING_DATA_some_range i pi hi
    obtain ⟨hj1, hj5⟩ := PRICING_DATA_some_range j pj hj
    interval_cases i <;> interval_cases j <;>
      simp_all [PRICING_DATA_one, PRICING_DATA_two, PRICING_DATA_three,
        PRICING_DATA_four, PRICING_DATA_five] <;>
      subst_vars <;> norm_num

/-- C8 witness: tier 2 is a key, and the prices of tiers 1 and 5 are
ordered. -/
theorem C8_witness : (PRICING_DATA 2).isSome ∧ (8 : ℚ) ≤ 36 :=
  ⟨(C8_table_shape.1 2).mpr (by decide),
    C8_table_shape.2 1 5 ⟨"10K", 8⟩ ⟨"1M", 36⟩ (by decide) rfl rfl⟩

/-- One operation keeps the `active` marker equal to the billing flag. -/
lemma applyOp_marker (op : Op) (s : DomState)
    (h : s.discountBtnActive = s.isYearlyBilling) :
    (applyOp op s).discountBtnActive = (applyOp op s).isYearlyBilling := by
  cases op with
  | setTier n =>
    have hf := rangeInputEvent_fields n s
    simp [applyOp, hf.2.1, hf.2.2, h]
  | toggleBilling =>
    simp [applyOp, handleDiscountToggle_discountBtnActive,
      handleDiscountToggle_isYearlyBilling]

/-- Any operation sequence keeps the marker equal to the billing flag. -/
lemma run_marker (ops : List Op) (s : DomState)
    (h : s.discountBtnActive = s.isYearlyBilling) :
    (run ops s).discountBtnActive = (run ops s).isYearlyBilling := by
  induction ops generalizing s with
  | nil => exact h
  | cons op ops ih => exact ih (applyOp op s) (applyOp_marker op s h)

/-- C9: after every sequence of setTier and toggleBilling operations from
the initial state, the toggle control's `active` marker is present exactly
when `isYearly` is true. -/
theorem C9_marker_matches_billing (ops : List Op) :
    (run ops (initializeComponent initialDom)).discountBtnActive =
      (run ops (initializeComponent initialDom)).isYearlyBilling :=
  run_marker ops (initializeComponent initialDom) rfl
